import Mathlib

/-!
Verification of the student record management system (two variants:
a Flask web variant `ReportCardSystem` and a Tkinter desktop variant
`AttendanceSystem`) against its natural-language specification.

The SQLite-backed state is shallowly embedded: each table is a list of
rows, a connection-scoped transaction is modelled by returning either
the committed successor state or the unchanged state on error.  Python
floats holding exact small decimals are modelled by `ℚ`; `round(x, 2)`
is modelled by round-half-to-even at two decimal places (Python 3
banker's rounding).

One SQLite semantic fact is load-bearing: neither variant ever executes
`PRAGMA foreign_keys = ON`, and SQLite leaves foreign-key enforcement
OFF by default, so the `FOREIGN KEY` clauses declared in the schema are
inert at runtime.  The embedding therefore performs no foreign-key
checks, while `UNIQUE`, `PRIMARY KEY` and `NOT NULL` constraints (always
enforced by SQLite) are modelled.
-/

/-- Floor of a rational, computed from the normalized representation
(`den` is always positive). -/
def ratFloor (q : ℚ) : ℤ := q.num.fdiv q.den

/-- Round-half-to-even to an integer, as Python 3's builtin `round` does
on exact values. -/
def roundHalfEven (q : ℚ) : ℤ :=
  let f : ℤ := ratFloor q
  let r : ℚ := q - f
  if r < 1/2 then f
  else if 1/2 < r then f + 1
  else if f % 2 = 0 then f else f + 1

/-- Python's `round(x, 2)`: round to two decimal places, ties to even. -/
def round2 (q : ℚ) : ℚ := (roundHalfEven (q * 100) : ℚ) / 100

/-- Python's fixed-point formatting `f"{x:.2f}"` for a rational. -/
def format2 (q : ℚ) : String :=
  let n := roundHalfEven (q * 100)
  let sign := if n < 0 then "-" else ""
  let m := n.natAbs
  let frac := m % 100
  sign ++ toString (m / 100) ++ "." ++
    (if frac < 10 then "0" ++ toString frac else toString frac)

/-- Python's `str.strip()`: drop leading and trailing whitespace. -/
def pyStrip (s : String) : String :=
  String.mk (((s.toList.dropWhile Char.isWhitespace).reverse.dropWhile
    Char.isWhitespace).reverse)

/-- Python's `str.upper()` on the ASCII department names used here. -/
def pyUpper (s : String) : String := String.mk (s.toList.map Char.toUpper)

/-- Python's slice `s[:n]`. -/
def pyTake (s : String) (n : Nat) : String := String.mk (s.toList.take n)

namespace AttendanceSystem

/-- Row of the desktop variant's `students` table (src/main.py,
`init_database`): identity fields plus the four denormalized aggregate
columns `total_classes, present_classes, absent_classes, percentage`
and the derived `status`. -/
structure StudentRow where
  student_id : String
  name : String
  email : String
  year : String
  department : String
  total_classes : Int
  present_classes : Int
  absent_classes : Int
  percentage : ℚ
  status : String
  created_date : String
deriving Repr, DecidableEq

/-- Singleton row of the `email_settings` table (id = 1). -/
structure EmailSettingsRow where
  sender_email : String
  sender_password : String
  hod_email : String
  threshold_percentage : ℚ
deriving Repr, DecidableEq

/-- The desktop variant's store: the `students` table and the optional
singleton `email_settings` row. -/
structure DB where
  students : List StudentRow
  email_settings : Option EmailSettingsRow
deriving Repr, DecidableEq

/-- `init_database` creates empty tables (no default settings row is
inserted in the desktop variant). -/
def init_database : DB := ⟨[], none⟩

/-- src/main.py `calculate_percentage`: `round((present/total)*100, 2)`
when `total > 0`, else `0.0`. -/
def calculate_percentage (total present : ℚ) : ℚ :=
  if 0 < total then round2 (present / total * 100) else 0

/-- src/main.py `get_status`: fixed thresholds 75 and 60. -/
def get_status (percentage : ℚ) : String :=
  if 75 ≤ percentage then "Good"
  else if 60 ≤ percentage then "Warning"
  else "Critical"

/-- The bound method `self.get_status` as the code exposes it: it
receives the whole system state (`self`) but its body reads only the
percentage argument, never the store. -/
def get_status_of (db : DB) (percentage : ℚ) : String :=
  let _ := db
  get_status percentage

/-- src/main.py `add_student`: recomputes percentage and status from the
caller-supplied totals, then INSERTs; a duplicate `student_id` violates
the primary key and is reported, leaving the store unchanged. -/
def add_student (db : DB) (student_id name email year department : String)
    (total present absent : Int) (today : String) : (Bool × String) × DB :=
  let percentage := calculate_percentage total present
  let status := get_status percentage
  let row : StudentRow :=
    ⟨student_id, name, email, year, department, total, present, absent,
      percentage, status, today⟩
  if db.students.any (fun s => s.student_id == student_id) then
    ((false, "Student ID already exists!"), db)
  else
    ((true, "Student " ++ name ++ " added successfully!"),
      { db with students := db.students ++ [row] })

/-- src/main.py `update_student`: recomputes percentage and status and
UPDATEs the matching row (a non-matching id updates nothing and still
reports success); `created_date` is not in the SET list. -/
def update_student (db : DB) (student_id name email year department : String)
    (total present absent : Int) : (Bool × String) × DB :=
  let percentage := calculate_percentage total present
  let status := get_status percentage
  let upd : StudentRow → StudentRow := fun s =>
    if s.student_id == student_id then
      ⟨s.student_id, name, email, year, department, total, present, absent,
        percentage, status, s.created_date⟩
    else s
  ((true, "Student updated successfully!"),
    { db with students := db.students.map upd })

/-- src/main.py `delete_student`: DELETE by id. -/
def delete_student (db : DB) (student_id : String) : (Bool × String) × DB :=
  let keep : StudentRow → Bool := fun s => !(s.student_id == student_id)
  ((true, "Student deleted successfully!"),
    { db with students := db.students.filter keep })

/-- src/main.py `save_email_settings`: INSERT OR REPLACE the singleton
settings row (id = 1). -/
def save_email_settings (db : DB) (sender_email sender_password hod_email :
    String) (threshold : ℚ) : Bool × DB :=
  let row : EmailSettingsRow := ⟨sender_email, sender_password, hod_email, threshold⟩
  (true, { db with email_settings := some row })

/-- src/main.py `get_email_settings`: read the singleton row. -/
def get_email_settings (db : DB) : Option EmailSettingsRow :=
  db.email_settings

/-- One desktop-variant store operation (the three mutators the claims
range over). -/
inductive Op where
  | add (student_id name email year department : String)
      (total present absent : Int) (today : String)
  | update (student_id name email year department : String)
      (total present absent : Int)
  | del (student_id : String)
deriving Repr, DecidableEq

/-- State transition of one operation (result messages discarded). -/
def step (db : DB) : Op → DB
  | .add sid name email year dept total present absent today =>
      (add_student db sid name email year dept total present absent today).2
  | .update sid name email year dept total present absent =>
      (update_student db sid name email year dept total present absent).2
  | .del sid => (delete_student db sid).2

/-- Run a sequence of operations from a starting store. -/
def run (ops : List Op) : DB := ops.foldl step init_database

/-- Consistency invariant actually maintained by the code: the stored
percentage is the recomputation from the stored totals (which is `0`
whenever `total_classes ≤ 0`, not only at `0`), and the stored status is
the tier of the stored percentage. -/
def rowConsistent (r : StudentRow) : Prop :=
  (0 < r.total_classes →
    r.percentage = round2 ((r.present_classes : ℚ) / (r.total_classes : ℚ) * 100)) ∧
  (r.total_classes ≤ 0 → r.percentage = 0) ∧
  r.status = get_status r.percentage

/-- Consistency invariant as the specification words it: the percentage
formula is claimed to apply whenever `total_classes ≠ 0`, with `0.0`
reserved for `total_classes = 0` exactly. -/
def rowConsistentClaimed (r : StudentRow) : Prop :=
  (r.total_classes ≠ 0 →
    r.percentage = round2 ((r.present_classes : ℚ) / (r.total_classes : ℚ) * 100)) ∧
  (r.total_classes = 0 → r.percentage = 0) ∧
  r.status = get_status r.percentage

instance (r : StudentRow) : Decidable (rowConsistent r) := by
  unfold rowConsistent
  infer_instance

instance (r : StudentRow) : Decidable (rowConsistentClaimed r) := by
  unfold rowConsistentClaimed
  infer_instance

/-- Operation sequence used to exhibit a consistent reachable row. -/
def sampleOps : List Op :=
  [Op.add "S1" "Asha" "asha@example.com" "1st Year" "B.Sc. Physics" 20 18 2
    "2026-01-01"]

/-- The row `sampleOps` stores: 18 of 20 classes is 90.0 %, Good. -/
def sampleRow : StudentRow :=
  ⟨"S1", "Asha", "asha@example.com", "1st Year", "B.Sc. Physics", 20, 18, 2,
    90, "Good", "2026-01-01"⟩

end AttendanceSystem

namespace ReportCardSystem

/-- Byte-wise (ASCII) lexicographic comparison, the BINARY collation
SQLite uses for `ORDER BY` on TEXT columns. -/
def strLtB (a b : String) : Bool :=
  let rec go : List Char → List Char → Bool
    | [], [] => false
    | [], _ :: _ => true
    | _ :: _, [] => false
    | c :: cs, d :: ds =>
      if c.toNat < d.toNat then true
      else if d.toNat < c.toNat then false
      else go cs ds
  go a.toList b.toList

/-- Insert into a sorted list (kept before the first element it is `le`
to). -/
def insertSorted (le : α → α → Bool) (x : α) : List α → List α
  | [] => [x]
  | y :: ys => if le x y then x :: y :: ys else y :: insertSorted le x ys

/-- Insertion sort modelling a SQL `ORDER BY`. -/
def sortByLe (le : α → α → Bool) : List α → List α
  | [] => []
  | x :: xs => insertSorted le x (sortByLe le xs)

/-- Fixed department list of the web variant. -/
def DEPARTMENTS : List String :=
  ["B.A. Economics", "B.A. English", "B.A. Tamil", "B.Sc. Botany",
    "B.Sc. Chemistry", "B.Sc. Mathematics", "B.Sc. Physics",
    "B.Sc. Computer Science", "B.Sc. Marine Biology", "B.Com.",
    "B.Com. (CA)", "Other"]

/-- Python's `str(i).zfill(2)` for the 1-based department index. -/
def zfill2 (n : Nat) : String :=
  if n < 10 then "0" ++ toString n else toString n

/-- `_populate_default_departments`: code is the upper-cased first three
characters of the name plus the zero-padded 1-based index. -/
def _populate_default_departments : List (String × String) :=
  DEPARTMENTS.enum.map (fun p => (pyUpper (pyTake p.2 3) ++ zfill2 (p.1 + 1), p.2))

/-- Row of the web variant's `students` table. -/
structure StudentRow where
  student_id : String
  name : String
  dept_code : String
  year : Int
  semester : Int
  email : String
  program_type : String
  duration_years : Int
  course_name : String
  created_date : String
deriving Repr, DecidableEq

/-- Row of the `subjects` table (the AUTOINCREMENT surrogate id is
never read back and is omitted). -/
structure SubjectRow where
  subject_name : String
  subject_code : String
  year : Int
  semester : Int
  max_marks : Int
deriving Repr, DecidableEq

/-- Row of the `marks` table (surrogate `mark_id` omitted, as no query
reads it). -/
structure MarkRow where
  student_id : String
  subject_code : String
  marks : ℚ
deriving Repr, DecidableEq

/-- Row of the `attendance` table (surrogate `att_id` omitted). -/
structure AttRow where
  student_id : String
  month : String
  classes_held : Int
  classes_attended : Int
deriving Repr, DecidableEq

/-- The web variant's store.  The `FOREIGN KEY` clauses in the schema
are inert at runtime (no `PRAGMA foreign_keys = ON` is ever executed,
and SQLite defaults to OFF), so no referential checks appear in the
operations below; `UNIQUE` and `PRIMARY KEY` constraints are modelled. -/
structure DB where
  departments : List (String × String)
  students : List StudentRow
  subjects : List SubjectRow
  marks : List MarkRow
  attendance : List AttRow
deriving Repr, DecidableEq

/-- `init_database` on a fresh store: tables created empty, then the
default departments are populated because the table is empty. -/
def init_database : DB := ⟨_populate_default_departments, [], [], [], []⟩

/-- `get_all_departments`: SELECT ordered by `dept_name`. -/
def get_all_departments (db : DB) : List (String × String) :=
  sortByLe (fun a b => !(strLtB b.2 a.2)) db.departments

/-- Value of one `marks_json` entry: absent (`null`) or a string/number
rendered as its string form. -/
def markValStr : Option String → String
  | none => "None"
  | some s => s

/-- Decimal digit run to a natural number. -/
def digitsVal (cs : List Char) : Nat :=
  cs.foldl (fun n c => 10 * n + (c.toNat - 48)) 0

/-- Exponent tail of a Python float literal (after `e`/`E`). -/
def parseExpTail (m : ℚ) (cs : List Char) : Option ℚ :=
  let p := match cs with
    | '+' :: r => (true, r)
    | '-' :: r => (false, r)
    | _ => (true, cs)
  let q := p.2.span Char.isDigit
  if q.1.isEmpty || !q.2.isEmpty then none
  else some (if p.1 then m * 10 ^ digitsVal q.1 else m / 10 ^ digitsVal q.1)

/-- Optional exponent part of a Python float literal. -/
def parseExpPart (m : ℚ) : List Char → Option ℚ
  | [] => some m
  | 'e' :: rest => parseExpTail m rest
  | 'E' :: rest => parseExpTail m rest
  | _ => none

/-- Python's `float(s)` on decimal literals: optional sign, digits with
an optional fractional part (at least one digit overall), optional
exponent; surrounding whitespace stripped.  `None` models the
`ValueError` raised on anything else. -/
def parseFloat (s : String) : Option ℚ :=
  let cs := (pyStrip s).toList
  let p := match cs with
    | '+' :: r => ((1 : ℚ), r)
    | '-' :: r => ((-1 : ℚ), r)
    | _ => ((1 : ℚ), cs)
  let q := p.2.span Char.isDigit
  match q.2 with
  | '.' :: rest =>
    let fr := rest.span Char.isDigit
    if q.1.isEmpty && fr.1.isEmpty then none
    else
      parseExpPart (p.1 * ((digitsVal q.1 : ℚ) + (digitsVal fr.1 : ℚ) / 10 ^ fr.1.length)) fr.2
  | _ =>
    if q.1.isEmpty then none
    else parseExpPart (p.1 * (digitsVal q.1 : ℚ)) q.2

/-- One month's entry of the `attendance_json` mapping. -/
structure AttEntry where
  held : Int
  attended : Int
deriving Repr, DecidableEq

/-- Full payload of the upsert endpoint. -/
structure Payload where
  student_id : String
  name : String
  dept_name : String
  year : Int
  semester : Int
  email : String
  program_type : String
  duration_years : Int
  course_name : String
  marks_data : List (String × Option String)
  attendance_data : List (String × AttEntry)
deriving Repr, DecidableEq

/-- The two exception classes the upsert distinguishes:
`sqlite3.IntegrityError` and the generic `Exception` (here only the
`ValueError` from `float()`). -/
inductive DbErr where
  | integrity
  | value
deriving Repr, DecidableEq

/-- Error messages of the upsert's two except-branches. -/
def errMsg (student_id : String) : DbErr → String
  | .integrity =>
    "Error: Student ID " ++ student_id ++ " already exists or data is corrupt."
  | .value => "Database error during save: could not convert string to float"

/-- The marks insertion loop: skip `None` and blank values, parse the
rest with `float()` (a parse failure aborts the transaction), and
respect `UNIQUE(student_id, subject_code)`.  No foreign-key check on
`subject_code` happens because enforcement is off. -/
def insertMarks (student_id : String) :
    List (String × Option String) → List MarkRow → Except DbErr (List MarkRow)
  | [], acc => .ok acc
  | (code, v) :: rest, acc =>
    match v with
    | none => insertMarks student_id rest acc
    | some s =>
      if pyStrip (markValStr (some s)) = "" then insertMarks student_id rest acc
      else
        match parseFloat s with
        | none => .error .value
        | some q =>
          if acc.any (fun m => m.student_id == student_id && m.subject_code == code) then
            .error .integrity
          else insertMarks student_id rest (acc ++ [⟨student_id, code, q⟩])

/-- The attendance insertion loop: months with `held ≤ 0` are dropped,
the rest are inserted respecting `UNIQUE(student_id, month)`. -/
def insertAtt (student_id : String) :
    List (String × AttEntry) → List AttRow → Except DbErr (List AttRow)
  | [], acc => .ok acc
  | (month, data) :: rest, acc =>
    if 0 < data.held then
      if acc.any (fun a => a.student_id == student_id && a.month == month) then
        .error .integrity
      else
        insertAtt student_id rest (acc ++ [⟨student_id, month, data.held, data.attended⟩])
    else insertAtt student_id rest acc

/-- Department-name resolution of the upsert: first match in the
`dept_name`-ordered department list, sentinel "OTH99" when none. -/
def resolveDeptCode (db : DB) (dept_name : String) : String :=
  match (get_all_departments db).find? (fun d => d.2 == dept_name) with
  | some d => d.1
  | none => "OTH99"

/-- The student row the upsert writes (INSERT OR REPLACE payload). -/
def upsertStudentRow (db : DB) (p : Payload) (today : String) : StudentRow :=
  ⟨p.student_id, p.name, resolveDeptCode db p.dept_name, p.year, p.semester,
    p.email, p.program_type, p.duration_years, p.course_name, today⟩

/-- `add_or_update_student`: resolve the department name (sentinel
"OTH99" when unmatched), INSERT OR REPLACE the student row, delete the
student's detail rows, re-insert marks and attendance from the payload,
then commit; on any exception nothing is committed and the store is
returned unchanged. -/
def add_or_update_student (db : DB) (p : Payload) (today : String) :
    (Bool × String) × DB :=
  let students1 :=
    db.students.filter (fun s => !(s.student_id == p.student_id)) ++
      [upsertStudentRow db p today]
  let marks0 := db.marks.filter (fun m => !(m.student_id == p.student_id))
  let att0 := db.attendance.filter (fun a => !(a.student_id == p.student_id))
  match insertMarks p.student_id p.marks_data marks0 with
  | .error e => ((false, errMsg p.student_id e), db)
  | .ok marks1 =>
    match insertAtt p.student_id p.attendance_data att0 with
    | .error e => ((false, errMsg p.student_id e), db)
    | .ok att1 =>
      ((true, "Student " ++ p.student_id ++ " data saved/updated successfully."),
        { db with students := students1, marks := marks1, attendance := att1 })

/-- `add_subject`: INSERT respecting `UNIQUE(subject_code)`. -/
def add_subject (db : DB) (name code : String) (year semester max_marks : Int) :
    (Bool × String) × DB :=
  if db.subjects.any (fun s => s.subject_code == code) then
    ((false, "Subject code " ++ code ++ " already exists."), db)
  else
    ((true, "Subject " ++ name ++ " added successfully."),
      { db with subjects := db.subjects ++ [⟨name, code, year, semester, max_marks⟩] })

/-- Joined mark row returned by `get_student_details_and_data`. -/
structure MarkDetail where
  subject_code : String
  subject_name : String
  max_marks : Int
  marks : ℚ
deriving Repr, DecidableEq

/-- Attendance row returned by `get_student_details_and_data`. -/
structure AttDetail where
  month : String
  classes_held : Int
  classes_attended : Int
deriving Repr, DecidableEq

/-- The `CASE month WHEN 'Jan' THEN 1 ... END` sort key; an unlisted
month yields SQL NULL, which sorts before every number (modelled 0). -/
def monthIndex (m : String) : Int :=
  if m == "Jan" then 1 else if m == "Feb" then 2 else if m == "Mar" then 3
  else if m == "Apr" then 4 else if m == "May" then 5 else if m == "Jun" then 6
  else if m == "Jul" then 7 else if m == "Aug" then 8 else if m == "Sep" then 9
  else if m == "Oct" then 10 else if m == "Nov" then 11 else if m == "Dec" then 12
  else 0

/-- `get_student_details_and_data`: INNER JOIN to departments (a student
with an unmatched `dept_code` yields no row, hence `None`), joined
marks, and attendance ordered by calendar month. -/
def get_student_details_and_data (db : DB) (student_id : String) :
    Option (StudentRow × String × List MarkDetail × List AttDetail) :=
  match db.students.find? (fun s => s.student_id == student_id) with
  | none => none
  | some st =>
    match db.departments.find? (fun d => d.1 == st.dept_code) with
    | none => none
    | some d =>
      let marks := (db.marks.filter (fun m => m.student_id == student_id)).filterMap
        (fun m => (db.subjects.find? (fun sub => sub.subject_code == m.subject_code)).map
          (fun sub => (⟨m.subject_code, sub.subject_name, sub.max_marks, m.marks⟩ : MarkDetail)))
      let atts := (db.attendance.filter (fun a => a.student_id == student_id)).map
        (fun a => (⟨a.month, a.classes_held, a.classes_attended⟩ : AttDetail))
      some (st, d.2, marks, sortByLe (fun a b => decide (monthIndex a.month ≤ monthIndex b.month)) atts)

/-- One row of `get_all_students_summary`: identity columns plus the
two formatted percentage strings appended by the code. -/
structure SummaryRow where
  student_id : String
  name : String
  dept_name : String
  year : Int
  semester : Int
  email : String
  program_type : String
  duration_years : Int
  course_name : String
  att_percent : String
  mark_percent : String
deriving Repr, DecidableEq

/-- ORDER BY `s.dept_code, s.year, s.student_id` of the summary query. -/
def summaryKeyLe (a b : StudentRow) : Bool :=
  if a.dept_code == b.dept_code then
    if a.year == b.year then !(strLtB b.student_id a.student_id)
    else decide (a.year < b.year)
  else strLtB a.dept_code b.dept_code

/-- `get_all_students_summary`: INNER JOIN students-departments ordered
by dept_code, year, student_id; per student the attendance percentage
(sums over attendance rows, `0.0` when no classes held) and the marks
percentage (sums over marks joined to subjects, `0.0` when no max
marks), both formatted `"%.2f%%"`. -/
def get_all_students_summary (db : DB) : List SummaryRow :=
  let joined := db.students.filterMap (fun st =>
    (db.departments.find? (fun d => d.1 == st.dept_code)).map (fun d => (st, d.2)))
  let sorted := sortByLe (fun a b => summaryKeyLe a.1 b.1) joined
  sorted.map (fun sd =>
    let st := sd.1
    let atts := db.attendance.filter (fun a => a.student_id == st.student_id)
    let held : Int := (atts.map (fun a => a.classes_held)).sum
    let attended : Int := (atts.map (fun a => a.classes_attended)).sum
    let att_percent : ℚ := if 0 < held then (attended : ℚ) / (held : ℚ) * 100 else 0
    let jm := (db.marks.filter (fun m => m.student_id == st.student_id)).filterMap
      (fun m => (db.subjects.find? (fun sub => sub.subject_code == m.subject_code)).map
        (fun sub => (m.marks, sub.max_marks)))
    let total_marks : ℚ := (jm.map (fun x => x.1)).sum
    let total_max : Int := (jm.map (fun x => x.2)).sum
    let mark_percent : ℚ :=
      if 0 < total_max then total_marks / (total_max : ℚ) * 100 else 0
    ⟨st.student_id, st.name, sd.2, st.year, st.semester, st.email,
      st.program_type, st.duration_years, st.course_name,
      format2 att_percent ++ "%", format2 mark_percent ++ "%"⟩)

/-- `calculate_grade`: seven-tier letter grade, first matching lower
bound from 90 down. -/
def calculate_grade (percentage : ℚ) : String :=
  if 90 ≤ percentage then "O"
  else if 80 ≤ percentage then "A+"
  else if 70 ≤ percentage then "A"
  else if 60 ≤ percentage then "B+"
  else if 50 ≤ percentage then "B"
  else if 40 ≤ percentage then "C"
  else "F"

/-- A payload marks entry qualifies for insertion when its value is
present (not `None`) and non-blank after stripping. -/
def qualifiesMark : String × Option String → Bool
  | (_, none) => false
  | (_, some s) => !(pyStrip (markValStr (some s)) == "")

/-- The mark rows the insertion loop appends, in payload order (defined
for all payloads; coincides with the loop's effect on success). -/
def marksInserted (sid : String) : List (String × Option String) → List MarkRow
  | [] => []
  | (code, v) :: rest =>
    match v with
    | none => marksInserted sid rest
    | some s =>
      if pyStrip (markValStr (some s)) = "" then marksInserted sid rest
      else
        match parseFloat s with
        | none => marksInserted sid rest
        | some q => ⟨sid, code, q⟩ :: marksInserted sid rest

/-- The attendance rows the insertion loop appends, in payload order. -/
def attInserted (sid : String) : List (String × AttEntry) → List AttRow
  | [] => []
  | (month, data) :: rest =>
    if 0 < data.held then
      ⟨sid, month, data.held, data.attended⟩ :: attInserted sid rest
    else attInserted sid rest

/-- Payload exercising skipped marks entries (a `None`, a blank) and a
zero-held month, for the detail-row witness. -/
def detailPayload : Payload :=
  ⟨"S3", "Tara", "B.A. Tamil", 2, 3, "", "", 3, "",
    [("MTH01", some "41.5"), ("PHY01", none), ("CHE01", some "  ")],
    [("Jan", ⟨10, 9⟩), ("Feb", ⟨0, 3⟩)]⟩

/-- Fresh web store with the two subjects of the concrete scenario. -/
def scenarioSubjectsDB : DB :=
  (add_subject ((add_subject init_database "Mathematics" "MTH01" 1 1 100).2)
    "Physics" "PHY01" 1 1 100).2

/-- The concrete scenario's payload for student S1. -/
def scenarioPayload : Payload :=
  ⟨"S1", "Asha", "B.Sc. Physics", 1, 1, "a@x.com", "UG", 3, "B.Sc. Physics",
    [("MTH01", some "80"), ("PHY01", some "70")],
    [("Jan", ⟨20, 18⟩), ("Feb", ⟨20, 10⟩)]⟩

/-- Payload whose department name matches no departments row. -/
def unknownDeptPayload : Payload :=
  ⟨"S2", "Ravi", "History", 1, 1, "", "", 3, "", [], []⟩

/-- First upsert of the foreign-key scenario: a mark for the real
subject MTH01. -/
def fkPayloadGood : Payload :=
  ⟨"S1", "Asha", "B.Sc. Physics", 1, 1, "a@x.com", "UG", 3, "B.Sc. Physics",
    [("MTH01", some "80")], [("Jan", ⟨20, 18⟩)]⟩

/-- Second upsert of the foreign-key scenario: a mark for a subject
code that exists in no subjects row. -/
def fkPayloadDangling : Payload :=
  ⟨"S1", "Asha", "B.Sc. Physics", 1, 1, "a@x.com", "UG", 3, "B.Sc. Physics",
    [("NOPE99", some "50")], []⟩

end ReportCardSystem

namespace AttendanceSystem

theorem rowConsistent_step (db : DB) (op : Op)
    (h : ∀ r ∈ db.students, rowConsistent r) :
    ∀ r ∈ (step db op).students, rowConsistent r := by
  intro r hr
  have base : ∀ total present : Int,
      (0 < total →
        calculate_percentage (total : ℚ) (present : ℚ) =
          round2 ((present : ℚ) / (total : ℚ) * 100)) ∧
      (total ≤ 0 → calculate_percentage (total : ℚ) (present : ℚ) = 0) := by
    intro total present
    constructor
    · intro ht
      have ht' : (0 : ℚ) < (total : ℚ) := by exact_mod_cast ht
      simp [calculate_percentage, ht']
    · intro ht
      have ht' : ¬ ((0 : ℚ) < (total : ℚ)) := by
        push_neg
        exact_mod_cast ht
      simp [calculate_percentage, ht']
  cases op with
  | add sid name email year dept total present absent today =>
    simp only [step, add_student] at hr
    by_cases hdup : db.students.any (fun s => s.student_id == sid)
    · simp [hdup] at hr
      exact h r hr
    · simp [hdup] at hr
      rcases hr with hr | hr
      · exact h r hr
      · subst hr
        refine ⟨?_, ?_, rfl⟩
        · intro ht
          exact (base total present).1 ht
        · intro ht
          exact (base total present).2 ht
  | update sid name email year dept total present absent =>
    simp only [step, update_student, List.mem_map] at hr
    rcases hr with ⟨s, hs, hmap⟩
    by_cases hid : s.student_id == sid
    · simp [hid] at hmap
      subst hmap
      refine ⟨?_, ?_, rfl⟩
      · intro ht
        exact (base total present).1 ht
      · intro ht
        exact (base total present).2 ht
    · simp [hid] at hmap
      subst hmap
      exact h s hs
  | del sid =>
    simp only [step, delete_student] at hr
    exact h r (List.mem_of_mem_filter hr)

end AttendanceSystem

/-- C3 (amended): every student row reachable by any sequence of
`add_student`, `update_student` and `delete_student` operations from the
freshly initialized desktop store satisfies: its stored percentage is
`round(present_classes/total_classes*100, 2)` when `total_classes > 0`
and `0.0` whenever `total_classes ≤ 0` (not only at zero), and its
stored status is the tier function of the stored percentage. -/
theorem desktop_reachable_rows_consistent (ops : List AttendanceSystem.Op)
    (r : AttendanceSystem.StudentRow)
    (hr : r ∈ (AttendanceSystem.run ops).students) :
    AttendanceSystem.rowConsistent r := by
  have main : ∀ (l : List AttendanceSystem.Op) (db : AttendanceSystem.DB),
      (∀ s ∈ db.students, AttendanceSystem.rowConsistent s) →
      ∀ s ∈ (l.foldl AttendanceSystem.step db).students,
        AttendanceSystem.rowConsistent s := by
    intro l
    induction l with
    | nil =>
      intro db h
      simpa using h
    | cons op rest ih =>
      intro db h
      exact ih (AttendanceSystem.step db op)
        (AttendanceSystem.rowConsistent_step db op h)
  exact main ops AttendanceSystem.init_database (by simp [AttendanceSystem.init_database]) r hr

/-- C3 witness: a concrete reachable row (18 of 20 classes) satisfying
the invariant, obtained from the main theorem. -/
theorem desktop_reachable_rows_consistent_witness :
    AttendanceSystem.sampleRow ∈
      (AttendanceSystem.run AttendanceSystem.sampleOps).students ∧
    AttendanceSystem.rowConsistent AttendanceSystem.sampleRow :=
  ⟨by with_unfolding_all decide,
    desktop_reachable_rows_consistent AttendanceSystem.sampleOps
      AttendanceSystem.sampleRow (by with_unfolding_all decide)⟩

/-- C3 counterexample: the claim as stated requires the percentage
formula for every nonzero `total_classes`, but a row with
`total_classes = -5` is reachable (the code never validates signs, and
`int()` parses negative entry text), and the code then stores
percentage `0.0` where the claimed formula gives `-60.0`. -/
theorem desktop_invariant_claim_counterexample :
    ¬ (∀ r ∈ (AttendanceSystem.run
        [AttendanceSystem.Op.add "S1" "Asha" "" "1st Year" "B.Sc. Physics"
          (-5) 3 0 "2026-01-01"]).students,
        AttendanceSystem.rowConsistentClaimed r) := by
  with_unfolding_all decide

/-- C4: `get_status` returns exactly one of Good, Warning, Critical,
with inclusive lower boundaries at 75 and 60: `p ≥ 75` is Good,
`60 ≤ p < 75` is Warning, `p < 60` is Critical. -/
theorem get_status_spec (p : ℚ) :
    (AttendanceSystem.get_status p = "Good" ∨
      AttendanceSystem.get_status p = "Warning" ∨
      AttendanceSystem.get_status p = "Critical") ∧
    (75 ≤ p ↔ AttendanceSystem.get_status p = "Good") ∧
    ((60 ≤ p ∧ p < 75) ↔ AttendanceSystem.get_status p = "Warning") ∧
    (p < 60 ↔ AttendanceSystem.get_status p = "Critical") := by
  unfold AttendanceSystem.get_status
  by_cases h1 : 75 ≤ p
  · have h3 : ¬ p < 75 := by linarith
    have h4 : ¬ p < 60 := by linarith
    simp [h1, h3, h4]
  · by_cases h2 : 60 ≤ p
    · have h3 : p < 75 := by linarith
      have h4 : ¬ p < 60 := by linarith
      simp [h1, h2, h3, h4]
    · have h3 : p < 60 := by linarith
      simp [h1, h2, h3]

/-- C4 witness: the claim's four boundary samples, read off the main
theorem: 75 is Good, 74.99 is Warning, 60 is Warning, 59.99 is
Critical. -/
theorem get_status_spec_witness :
    AttendanceSystem.get_status 75 = "Good" ∧
    AttendanceSystem.get_status (7499/100) = "Warning" ∧
    AttendanceSystem.get_status 60 = "Warning" ∧
    AttendanceSystem.get_status (5999/100) = "Critical" :=
  ⟨(get_status_spec 75).2.1.mp (by norm_num),
    (get_status_spec (7499/100)).2.2.1.mp (by norm_num),
    (get_status_spec 60).2.2.1.mp (by norm_num),
    (get_status_spec (5999/100)).2.2.2.mp (by norm_num)⟩

/-- C5: for all non-negative inputs, `calculate_percentage` returns
`round(present/total*100, 2)` when `total > 0` and `0.0` when
`total = 0`; it is a pure total function on such inputs (no store
access, no exception path). -/
theorem calculate_percentage_spec (total present : ℚ)
    (h1 : 0 ≤ total) (h2 : 0 ≤ present) :
    (0 < total →
      AttendanceSystem.calculate_percentage total present =
        round2 (present / total * 100)) ∧
    (total = 0 → AttendanceSystem.calculate_percentage total present = 0) := by
  constructor
  · intro ht
    simp [AttendanceSystem.calculate_percentage, ht]
  · intro ht
    subst ht
    simp [AttendanceSystem.calculate_percentage]

/-- C5 witness: 18 attended of 20 held gives `round(90, 2)`, and a zero
denominator gives `0.0`. -/
theorem calculate_percentage_spec_witness :
    AttendanceSystem.calculate_percentage 20 18 = round2 ((18:ℚ) / 20 * 100) ∧
    AttendanceSystem.calculate_percentage 0 7 = 0 :=
  ⟨(calculate_percentage_spec 20 18 (by norm_num) (by norm_num)).1 (by norm_num),
    (calculate_percentage_spec 0 7 le_rfl (by norm_num)).2 rfl⟩

/-- C9: the status derivation never consults the stored
`threshold_percentage`: two stores that differ only in the threshold
saved via `save_email_settings` genuinely hold different settings rows,
yet `get_status` (as a method of the system state) returns the same
label for every percentage, and `add_student` derives the same stored
rows on both. -/
theorem get_status_ignores_threshold_setting (db : AttendanceSystem.DB)
    (sender pw hod : String) (t1 t2 : ℚ) (hne : t1 ≠ t2) :
    (AttendanceSystem.save_email_settings db sender pw hod t1).2.email_settings ≠
      (AttendanceSystem.save_email_settings db sender pw hod t2).2.email_settings ∧
    (∀ p : ℚ,
      AttendanceSystem.get_status_of
          (AttendanceSystem.save_email_settings db sender pw hod t1).2 p =
        AttendanceSystem.get_status_of
          (AttendanceSystem.save_email_settings db sender pw hod t2).2 p) ∧
    (∀ sid name email year dept : String, ∀ total present absent : Int,
      ∀ today : String,
      (AttendanceSystem.add_student
          (AttendanceSystem.save_email_settings db sender pw hod t1).2
          sid name email year dept total present absent today).2.students =
        (AttendanceSystem.add_student
          (AttendanceSystem.save_email_settings db sender pw hod t2).2
          sid name email year dept total present absent today).2.students) := by
  refine ⟨?_, fun p => rfl, ?_⟩
  · simp [AttendanceSystem.save_email_settings, hne]
  · intro sid name email year dept total present absent today
    simp only [AttendanceSystem.add_student, AttendanceSystem.save_email_settings]
    by_cases hC : db.students.any (fun s => s.student_id == sid) <;> simp [hC]

/-- C9 witness: thresholds 50 and 75 on the fresh store give different
settings rows but the same derived status at percentage 70. -/
theorem get_status_ignores_threshold_setting_witness :
    (AttendanceSystem.save_email_settings AttendanceSystem.init_database
        "a@x.com" "pw" "h@x.com" 50).2.email_settings ≠
      (AttendanceSystem.save_email_settings AttendanceSystem.init_database
        "a@x.com" "pw" "h@x.com" 75).2.email_settings ∧
    AttendanceSystem.get_status_of
        (AttendanceSystem.save_email_settings AttendanceSystem.init_database
          "a@x.com" "pw" "h@x.com" 50).2 70 =
      AttendanceSystem.get_status_of
        (AttendanceSystem.save_email_settings AttendanceSystem.init_database
          "a@x.com" "pw" "h@x.com" 75).2 70 := by
  have h := get_status_ignores_threshold_setting AttendanceSystem.init_database
    "a@x.com" "pw" "h@x.com" 50 75 (by norm_num)
  exact ⟨h.1, h.2.1 70⟩

namespace ReportCardSystem
theorem filter_filter_self (p : α → Bool) (l : List α) :
    (l.filter p).filter p = l.filter p := by
  induction l with
  | nil => rfl
  | cons x xs ih =>
    by_cases h : p x <;> simp [List.filter_cons, h, ih]

theorem filter_not_self_nil (p : α → Bool) (l : List α) :
    (l.filter (fun x => !(p x))).filter p = [] := by
  induction l with
  | nil => rfl
  | cons x xs ih =>
    by_cases h : p x <;> simp [List.filter_cons, h, ih]

theorem insertMarks_ok_eq (sid : String) :
    ∀ (es : List (String × Option String)) (acc res : List MarkRow),
      insertMarks sid es acc = .ok res → res = acc ++ marksInserted sid es := by
  intro es
  induction es with
  | nil =>
    intro acc res h
    simp [insertMarks] at h
    simp [marksInserted, h]
  | cons e rest ih =>
    intro acc res h
    obtain ⟨code, v⟩ := e
    cases v with
    | none =>
      simp only [insertMarks] at h
      simpa [marksInserted] using ih acc res h
    | some s =>
      by_cases hb : pyStrip (markValStr (some s)) = ""
      · simp only [insertMarks, if_pos hb] at h
        simpa [marksInserted, hb] using ih acc res h
      · cases hp : parseFloat s with
        | none => simp [insertMarks, if_neg hb, hp] at h
        | some q =>
          by_cases hdup :
              acc.any (fun m => m.student_id == sid && m.subject_code == code)
          · simp [insertMarks, if_neg hb, hp, hdup] at h
          · simp only [insertMarks, if_neg hb, hp, hdup, Bool.false_eq_true,
              if_false, if_neg] at h
            have := ih (acc ++ [⟨sid, code, q⟩]) res h
            simp [this, marksInserted, hb, hp]

theorem insertAtt_ok_eq (sid : String) :
    ∀ (es : List (String × AttEntry)) (acc res : List AttRow),
      insertAtt sid es acc = .ok res → res = acc ++ attInserted sid es := by
  intro es
  induction es with
  | nil =>
    intro acc res h
    simp [insertAtt] at h
    simp [attInserted, h]
  | cons e rest ih =>
    intro acc res h
    obtain ⟨month, data⟩ := e
    by_cases hh : 0 < data.held
    · by_cases hdup : acc.any (fun a => a.student_id == sid && a.month == month)
      · simp [insertAtt, if_pos hh, hdup] at h
      · simp only [insertAtt, if_pos hh, hdup, Bool.false_eq_true, if_false,
          if_neg] at h
        have := ih (acc ++ [⟨sid, month, data.held, data.attended⟩]) res h
        simp [this, attInserted, hh]
    · simp only [insertAtt, if_neg hh] at h
      simpa [attInserted, hh] using ih acc res h

theorem marksInserted_filter_ne (sid : String)
    (es : List (String × Option String)) :
    (marksInserted sid es).filter (fun m => !(m.student_id == sid)) = [] := by
  induction es with
  | nil => rfl
  | cons e rest ih =>
    obtain ⟨code, v⟩ := e
    cases v with
    | none => simpa [marksInserted] using ih
    | some s =>
      by_cases hb : pyStrip (markValStr (some s)) = ""
      · simpa [marksInserted, hb] using ih
      · cases hp : parseFloat s with
        | none => simpa [marksInserted, hb, hp] using ih
        | some q => simpa [marksInserted, hb, hp, List.filter_cons] using ih

theorem marksInserted_filter_self (sid : String)
    (es : List (String × Option String)) :
    (marksInserted sid es).filter (fun m => m.student_id == sid) =
      marksInserted sid es := by
  induction es with
  | nil => rfl
  | cons e rest ih =>
    obtain ⟨code, v⟩ := e
    cases v with
    | none => simpa [marksInserted] using ih
    | some s =>
      by_cases hb : pyStrip (markValStr (some s)) = ""
      · simpa [marksInserted, hb] using ih
      · cases hp : parseFloat s with
        | none => simpa [marksInserted, hb, hp] using ih
        | some q => simpa [marksInserted, hb, hp, List.filter_cons] using ih

theorem attInserted_filter_ne (sid : String) (es : List (String × AttEntry)) :
    (attInserted sid es).filter (fun a => !(a.student_id == sid)) = [] := by
  induction es with
  | nil => rfl
  | cons e rest ih =>
    obtain ⟨month, data⟩ := e
    by_cases hh : 0 < data.held
    · simpa [attInserted, hh, List.filter_cons] using ih
    · simpa [attInserted, hh] using ih

theorem attInserted_filter_self (sid : String) (es : List (String × AttEntry)) :
    (attInserted sid es).filter (fun a => a.student_id == sid) =
      attInserted sid es := by
  induction es with
  | nil => rfl
  | cons e rest ih =>
    obtain ⟨month, data⟩ := e
    by_cases hh : 0 < data.held
    · simpa [attInserted, hh, List.filter_cons] using ih
    · simpa [attInserted, hh] using ih

theorem attInserted_eq_filterMap (sid : String) (es : List (String × AttEntry)) :
    attInserted sid es =
      (es.filter (fun e => decide (0 < e.2.held))).map
        (fun e => (⟨sid, e.1, e.2.held, e.2.attended⟩ : AttRow)) := by
  induction es with
  | nil => rfl
  | cons e rest ih =>
    obtain ⟨month, data⟩ := e
    by_cases hh : 0 < data.held
    · simp [attInserted, hh, List.filter_cons, ih]
    · simp [attInserted, hh, List.filter_cons, ih]

theorem insertMarks_ok_codes (sid : String) :
    ∀ (es : List (String × Option String)) (acc res : List MarkRow),
      insertMarks sid es acc = .ok res →
      (marksInserted sid es).map MarkRow.subject_code =
        (es.filter qualifiesMark).map Prod.fst := by
  intro es
  induction es with
  | nil => intro acc res h; rfl
  | cons e rest ih =>
    intro acc res h
    obtain ⟨code, v⟩ := e
    cases v with
    | none =>
      simp only [insertMarks] at h
      simpa [marksInserted, qualifiesMark, List.filter_cons] using ih acc res h
    | some s =>
      by_cases hb : pyStrip (markValStr (some s)) = ""
      · simp only [insertMarks, if_pos hb] at h
        have hq : qualifiesMark (code, some s) = false := by
          simp [qualifiesMark, hb]
        simpa [marksInserted, hb, List.filter_cons, hq] using ih acc res h
      · cases hp : parseFloat s with
        | none => simp [insertMarks, if_neg hb, hp] at h
        | some q =>
          by_cases hdup :
              acc.any (fun m => m.student_id == sid && m.subject_code == code)
          · simp [insertMarks, if_neg hb, hp, hdup] at h
          · simp only [insertMarks, if_neg hb, hp, hdup, Bool.false_eq_true,
              if_false, if_neg] at h
            have hq : qualifiesMark (code, some s) = true := by
              simp [qualifiesMark, hb]
            simpa [marksInserted, hb, hp, List.filter_cons, hq] using
              ih (acc ++ [⟨sid, code, q⟩]) res h

theorem nodup_keys_eq {α β : Type} [DecidableEq α] :
    ∀ {l : List (α × β)}, (l.map Prod.fst).Nodup →
      ∀ {k : α} {b c : β}, (k, b) ∈ l → (k, c) ∈ l → b = c := by
  intro l
  induction l with
  | nil => intro _ k b c hb; cases hb
  | cons e rest ih =>
    intro hnd k b c hb hc
    obtain ⟨k0, v0⟩ := e
    simp only [List.map_cons, List.nodup_cons] at hnd
    rcases List.mem_cons.mp hb with hb1 | hb2
    · rcases List.mem_cons.mp hc with hc1 | hc2
      · rw [Prod.mk.injEq] at hb1 hc1
        rw [hb1.2, hc1.2]
      · exfalso
        rw [Prod.mk.injEq] at hb1
        exact hnd.1 (by simpa [← hb1.1] using List.mem_map_of_mem Prod.fst hc2)
    · rcases List.mem_cons.mp hc with hc1 | hc2
      · exfalso
        rw [Prod.mk.injEq] at hc1
        exact hnd.1 (by simpa [← hc1.1] using List.mem_map_of_mem Prod.fst hb2)
      · exact ih hnd.2 hb2 hc2

/-- C2: the web upsert is idempotent on stored state: running the very
same payload twice (same day) leaves exactly the store the first run
left — same student rows, mark rows, attendance rows, and untouched
departments and subjects.  This validates the delete-then-insert
replace semantics, and also covers failing payloads (which leave the
store unchanged both times). -/
theorem web_upsert_idempotent (db : DB) (p : Payload) (today : String) :
    (add_or_update_student (add_or_update_student db p today).2 p today).2 =
      (add_or_update_student db p today).2 := by
  cases hm : insertMarks p.student_id p.marks_data
      (db.marks.filter (fun m => !(m.student_id == p.student_id))) with
  | error e =>
    have h1 : (add_or_update_student db p today).2 = db := by
      simp [add_or_update_student, hm]
    rw [h1]
    exact h1
  | ok marks1 =>
    cases ha : insertAtt p.student_id p.attendance_data
        (db.attendance.filter (fun a => !(a.student_id == p.student_id))) with
    | error e =>
      have h1 : (add_or_update_student db p today).2 = db := by
        simp [add_or_update_student, hm, ha]
      rw [h1]
      exact h1
    | ok att1 =>
      have hM : marks1.filter (fun m => !(m.student_id == p.student_id)) =
          db.marks.filter (fun m => !(m.student_id == p.student_id)) := by
        rw [insertMarks_ok_eq p.student_id p.marks_data _ _ hm,
          List.filter_append, filter_filter_self, marksInserted_filter_ne,
          List.append_nil]
      have hA : att1.filter (fun a => !(a.student_id == p.student_id)) =
          db.attendance.filter (fun a => !(a.student_id == p.student_id)) := by
        rw [insertAtt_ok_eq p.student_id p.attendance_data _ _ ha,
          List.filter_append, filter_filter_self, attInserted_filter_ne,
          List.append_nil]
      have hS : ((db.students.filter (fun s => !(s.student_id == p.student_id))) ++
            [upsertStudentRow db p today]).filter
            (fun s => !(s.student_id == p.student_id)) =
          db.students.filter (fun s => !(s.student_id == p.student_id)) := by
        rw [List.filter_append, filter_filter_self]
        simp [List.filter_cons, upsertStudentRow]
      have hrow : upsertStudentRow
          (DB.mk db.departments
            ((db.students.filter (fun s => !(s.student_id == p.student_id))) ++
              [upsertStudentRow db p today])
            db.subjects marks1 att1) p today = upsertStudentRow db p today := rfl
      simp only [add_or_update_student, hm, ha, hM, hA, hS, hrow]

/-- C7: after a successful upsert the student's stored detail rows are
exactly the qualifying payload entries: the mark rows' subject codes
are the marks-mapping keys whose value is present and non-blank (in
payload order), the attendance rows are exactly the month entries with
`held > 0` (stored verbatim), and no attendance row exists for a month
whose entry has `held = 0`. -/
theorem web_upsert_success_detail_rows (db : DB) (p : Payload) (today : String)
    (hnodup : (p.attendance_data.map Prod.fst).Nodup)
    (hok : (add_or_update_student db p today).1.1 = true) :
    ((add_or_update_student db p today).2.marks.filter
        (fun m => m.student_id == p.student_id)).map MarkRow.subject_code =
      (p.marks_data.filter qualifiesMark).map Prod.fst ∧
    (add_or_update_student db p today).2.attendance.filter
        (fun a => a.student_id == p.student_id) =
      (p.attendance_data.filter (fun e => decide (0 < e.2.held))).map
        (fun e => (⟨p.student_id, e.1, e.2.held, e.2.attended⟩ : AttRow)) ∧
    (∀ month e, (month, e) ∈ p.attendance_data → e.held = 0 →
      ∀ a ∈ (add_or_update_student db p today).2.attendance,
        ¬ (a.student_id = p.student_id ∧ a.month = month)) := by
  cases hm : insertMarks p.student_id p.marks_data
      (db.marks.filter (fun m => !(m.student_id == p.student_id))) with
  | error e => simp [add_or_update_student, hm] at hok
  | ok marks1 =>
    cases ha : insertAtt p.student_id p.attendance_data
        (db.attendance.filter (fun a => !(a.student_id == p.student_id))) with
    | error e => simp [add_or_update_student, hm, ha] at hok
    | ok att1 =>
      have hmarks : (add_or_update_student db p today).2.marks = marks1 := by
        simp [add_or_update_student, hm, ha]
      have hatt : (add_or_update_student db p today).2.attendance = att1 := by
        simp [add_or_update_student, hm, ha]
      have hm1 := insertMarks_ok_eq p.student_id p.marks_data _ _ hm
      have ha1 := insertAtt_ok_eq p.student_id p.attendance_data _ _ ha
      refine ⟨?_, ?_, ?_⟩
      · rw [hmarks, hm1, List.filter_append, filter_not_self_nil,
          List.nil_append, marksInserted_filter_self]
        exact insertMarks_ok_codes p.student_id p.marks_data _ _ hm
      · rw [hatt, ha1, List.filter_append, filter_not_self_nil,
          List.nil_append, attInserted_filter_self, attInserted_eq_filterMap]
      · intro month e hmem hheld a hamem hcontra
        rw [hatt, ha1] at hamem
        rcases List.mem_append.mp hamem with h1 | h2
        · have hne := List.of_mem_filter h1
          simp only [Bool.not_eq_eq_eq_not, Bool.not_true, beq_eq_false_iff_ne,
            ne_eq] at hne
          exact hne hcontra.1
        · rw [attInserted_eq_filterMap] at h2
          rcases List.mem_map.mp h2 with ⟨e2, he2mem, he2eq⟩
          have hboth := List.mem_filter.mp he2mem
          have he2 : decide (0 < e2.2.held) = true := hboth.2
          have hmem2 : e2 ∈ p.attendance_data := hboth.1
          have hmon : e2.1 = month := by
            rw [← he2eq] at hcontra
            exact hcontra.2
          have hpair : (month, e2.2) ∈ p.attendance_data := by
            rw [← hmon]
            exact hmem2
          have heq : e2.2 = e := nodup_keys_eq hnodup hpair hmem
          rw [heq] at he2
          simp only [decide_eq_true_eq] at he2
          omega

/-- C7 witness: a payload with a `None` value, a blank value, and a
zero-held month stores exactly one mark row (MTH01) and one attendance
row (Jan), as the main theorem states. -/
theorem web_upsert_success_detail_rows_witness :
    (detailPayload.attendance_data.map Prod.fst).Nodup ∧
    (add_or_update_student init_database detailPayload "2026-10-12").1.1 = true ∧
    ((add_or_update_student init_database detailPayload
          "2026-10-12").2.marks.filter
        (fun m => m.student_id == detailPayload.student_id)).map
        MarkRow.subject_code =
      (detailPayload.marks_data.filter qualifiesMark).map Prod.fst ∧
    (add_or_update_student init_database detailPayload
          "2026-10-12").2.attendance.filter
        (fun a => a.student_id == detailPayload.student_id) =
      (detailPayload.attendance_data.filter (fun e => decide (0 < e.2.held))).map
        (fun e => (⟨detailPayload.student_id, e.1, e.2.held, e.2.attended⟩ :
          AttRow)) :=
  ⟨by decide, by with_unfolding_all decide,
    (web_upsert_success_detail_rows init_database detailPayload "2026-10-12"
      (by decide) (by with_unfolding_all decide)).1,
    (web_upsert_success_detail_rows init_database detailPayload "2026-10-12"
      (by decide) (by with_unfolding_all decide)).2.1⟩

end ReportCardSystem

/-- C6: `calculate_grade` returns exactly one of the seven letter
grades, chosen by the first matching lower bound evaluated high-to-low
with thresholds at 90/80/70/60/50/40. -/
theorem calculate_grade_spec (p : ℚ) :
    (ReportCardSystem.calculate_grade p = "O" ∨
      ReportCardSystem.calculate_grade p = "A+" ∨
      ReportCardSystem.calculate_grade p = "A" ∨
      ReportCardSystem.calculate_grade p = "B+" ∨
      ReportCardSystem.calculate_grade p = "B" ∨
      ReportCardSystem.calculate_grade p = "C" ∨
      ReportCardSystem.calculate_grade p = "F") ∧
    (90 ≤ p ↔ ReportCardSystem.calculate_grade p = "O") ∧
    ((80 ≤ p ∧ p < 90) ↔ ReportCardSystem.calculate_grade p = "A+") ∧
    ((70 ≤ p ∧ p < 80) ↔ ReportCardSystem.calculate_grade p = "A") ∧
    ((60 ≤ p ∧ p < 70) ↔ ReportCardSystem.calculate_grade p = "B+") ∧
    ((50 ≤ p ∧ p < 60) ↔ ReportCardSystem.calculate_grade p = "B") ∧
    ((40 ≤ p ∧ p < 50) ↔ ReportCardSystem.calculate_grade p = "C") ∧
    (p < 40 ↔ ReportCardSystem.calculate_grade p = "F") := by
  unfold ReportCardSystem.calculate_grade
  by_cases h90 : 90 ≤ p
  · have n90 : ¬ p < 90 := by linarith
    have n80 : ¬ p < 80 := by linarith
    have n70 : ¬ p < 70 := by linarith
    have n60 : ¬ p < 60 := by linarith
    have n50 : ¬ p < 50 := by linarith
    have n40 : ¬ p < 40 := by linarith
    simp [h90, n90, n80, n70, n60, n50, n40]
  · by_cases h80 : 80 ≤ p
    · have l90 : p < 90 := by linarith
      have n80 : ¬ p < 80 := by linarith
      have n70 : ¬ p < 70 := by linarith
      have n60 : ¬ p < 60 := by linarith
      have n50 : ¬ p < 50 := by linarith
      have n40 : ¬ p < 40 := by linarith
      simp [h90, h80, l90, n80, n70, n60, n50, n40]
    · by_cases h70 : 70 ≤ p
      · have l80 : p < 80 := by linarith
        have n70 : ¬ p < 70 := by linarith
        have n60 : ¬ p < 60 := by linarith
        have n50 : ¬ p < 50 := by linarith
        have n40 : ¬ p < 40 := by linarith
        simp [h90, h80, h70, l80, n70, n60, n50, n40]
      · by_cases h60 : 60 ≤ p
        · have l70 : p < 70 := by linarith
          have n60 : ¬ p < 60 := by linarith
          have n50 : ¬ p < 50 := by linarith
          have n40 : ¬ p < 40 := by linarith
          simp [h90, h80, h70, h60, l70, n60, n50, n40]
        · by_cases h50 : 50 ≤ p
          · have l60 : p < 60 := by linarith
            have n50 : ¬ p < 50 := by linarith
            have n40 : ¬ p < 40 := by linarith
            simp [h90, h80, h70, h60, h50, l60, n50, n40]
          · by_cases h40 : 40 ≤ p
            · have l50 : p < 50 := by linarith
              have n40 : ¬ p < 40 := by linarith
              simp [h90, h80, h70, h60, h50, h40, l50, n40]
            · have l40 : p < 40 := by linarith
              simp [h90, h80, h70, h60, h50, h40, l40]

/-- C6 witness: the claim's boundary samples read off the main theorem:
90 is O, 89.99 and 80 are A+, 79.99 is A, 39.99 is F. -/
theorem calculate_grade_spec_witness :
    ReportCardSystem.calculate_grade 90 = "O" ∧
    ReportCardSystem.calculate_grade (8999/100) = "A+" ∧
    ReportCardSystem.calculate_grade 80 = "A+" ∧
    ReportCardSystem.calculate_grade (7999/100) = "A" ∧
    ReportCardSystem.calculate_grade (3999/100) = "F" :=
  ⟨(calculate_grade_spec 90).2.1.mp (by norm_num),
    (calculate_grade_spec (8999/100)).2.2.1.mp (by norm_num),
    (calculate_grade_spec 80).2.2.1.mp (by norm_num),
    (calculate_grade_spec (7999/100)).2.2.2.1.mp (by norm_num),
    (calculate_grade_spec (3999/100)).2.2.2.2.2.2.2.mp (by norm_num)⟩

/-- C8: the concrete end-to-end scenario.  With subjects MTH01 and
PHY01 (max 100 each), upserting S1 with marks 80 and 70 and attendance
Jan 18/20, Feb 10/20 succeeds; the summary row shows attendance
28/40 = 70.00% and marks 150/200 = 75.00%; the grade of the marks
percentage is A and the status of the attendance percentage is
Warning. -/
theorem scenario_s1_end_to_end :
    (ReportCardSystem.add_or_update_student ReportCardSystem.scenarioSubjectsDB
        ReportCardSystem.scenarioPayload "2026-10-12").1.1 = true ∧
    ReportCardSystem.get_all_students_summary
        (ReportCardSystem.add_or_update_student ReportCardSystem.scenarioSubjectsDB
          ReportCardSystem.scenarioPayload "2026-10-12").2 =
      [⟨"S1", "Asha", "B.Sc. Physics", 1, 1, "a@x.com", "UG", 3,
        "B.Sc. Physics", "70.00%", "75.00%"⟩] ∧
    ((28 : ℚ) / 40 * 100) = 70 ∧ ((150 : ℚ) / 200 * 100) = 75 ∧
    ReportCardSystem.calculate_grade ((150 : ℚ) / 200 * 100) = "A" ∧
    AttendanceSystem.get_status ((28 : ℚ) / 40 * 100) = "Warning" := by
  with_unfolding_all decide

/-- C10: a department name matching no departments row is silently
mapped to the sentinel code OTH99; the default-populated codes (first
three letters upper-cased plus zero-padded 1-based index) never include
OTH99 ("Other" is OTH12), so the stored student is dropped by the inner
joins: absent from the fleet summary, and the detail lookup returns
None. -/
theorem unknown_department_sentinel_hides_student :
    ReportCardSystem.init_database.departments.map Prod.fst =
      ["B.A01", "B.A02", "B.A03", "B.S04", "B.S05", "B.S06", "B.S07",
        "B.S08", "B.S09", "B.C10", "B.C11", "OTH12"] ∧
    (ReportCardSystem.add_or_update_student ReportCardSystem.init_database
        ReportCardSystem.unknownDeptPayload "2026-10-12").1.1 = true ∧
    (ReportCardSystem.add_or_update_student ReportCardSystem.init_database
        ReportCardSystem.unknownDeptPayload "2026-10-12").2.students.map
      (fun s => (s.student_id, s.dept_code)) = [("S2", "OTH99")] ∧
    ReportCardSystem.get_all_students_summary
      (ReportCardSystem.add_or_update_student ReportCardSystem.init_database
        ReportCardSystem.unknownDeptPayload "2026-10-12").2 = [] ∧
    ReportCardSystem.get_student_details_and_data
      (ReportCardSystem.add_or_update_student ReportCardSystem.init_database
        ReportCardSystem.unknownDeptPayload "2026-10-12").2 "S2" = none := by
  with_unfolding_all decide

/-- C1 (code bug): the schema declares a foreign key from marks to
subjects, but no connection ever runs `PRAGMA foreign_keys = ON`, so
SQLite never enforces it.  Upserting S1 (whose MTH01 mark and Jan
attendance are stored) with a mark for the non-existent subject code
NOPE99 therefore does not fail: it commits, deletes the prior detail
rows, and stores a dangling mark row — contradicting the claimed
rollback. -/
theorem dangling_subject_code_commits :
    (ReportCardSystem.add_or_update_student
        ((ReportCardSystem.add_subject ReportCardSystem.init_database
          "Mathematics" "MTH01" 1 1 100).2)
        ReportCardSystem.fkPayloadGood "2026-10-12").1.1 = true ∧
    (ReportCardSystem.add_or_update_student
        ((ReportCardSystem.add_subject ReportCardSystem.init_database
          "Mathematics" "MTH01" 1 1 100).2)
        ReportCardSystem.fkPayloadGood "2026-10-12").2.marks =
      [⟨"S1", "MTH01", 80⟩] ∧
    (ReportCardSystem.add_or_update_student
        ((ReportCardSystem.add_subject ReportCardSystem.init_database
          "Mathematics" "MTH01" 1 1 100).2)
        ReportCardSystem.fkPayloadGood "2026-10-12").2.attendance =
      [⟨"S1", "Jan", 20, 18⟩] ∧
    (ReportCardSystem.add_or_update_student
      (ReportCardSystem.add_or_update_student
        ((ReportCardSystem.add_subject ReportCardSystem.init_database
          "Mathematics" "MTH01" 1 1 100).2)
        ReportCardSystem.fkPayloadGood "2026-10-12").2
      ReportCardSystem.fkPayloadDangling "2026-10-12").1.1 = true ∧
    (ReportCardSystem.add_or_update_student
      (ReportCardSystem.add_or_update_student
        ((ReportCardSystem.add_subject ReportCardSystem.init_database
          "Mathematics" "MTH01" 1 1 100).2)
        ReportCardSystem.fkPayloadGood "2026-10-12").2
      ReportCardSystem.fkPayloadDangling "2026-10-12").2.subjects.all
      (fun s => !(s.subject_code == "NOPE99")) = true ∧
    (ReportCardSystem.add_or_update_student
      (ReportCardSystem.add_or_update_student
        ((ReportCardSystem.add_subject ReportCardSystem.init_database
          "Mathematics" "MTH01" 1 1 100).2)
        ReportCardSystem.fkPayloadGood "2026-10-12").2
      ReportCardSystem.fkPayloadDangling "2026-10-12").2.marks =
      [⟨"S1", "NOPE99", 50⟩] ∧
    (ReportCardSystem.add_or_update_student
      (ReportCardSystem.add_or_update_student
        ((ReportCardSystem.add_subject ReportCardSystem.init_database
          "Mathematics" "MTH01" 1 1 100).2)
        ReportCardSystem.fkPayloadGood "2026-10-12").2
      ReportCardSystem.fkPayloadDangling "2026-10-12").2.attendance = [] := by
  with_unfolding_all decide
